import Mathlib

/-!
Verification of the session credential lifecycle manager of the
`gemini_webapi` package: a shallow embedding of
`utils/decorators.py` (retry orchestrator), `utils/get_access_token.py`
(concurrent credential probe) and `utils/rotate_1psidts.py` (token
rotation with disk cache), together with theorems settling the spec
claims about them.

Conventions of the embedding:
* Python exceptions become explicit error values; a function that can
  raise returns an outcome carrying either a value or the error raised.
* Asynchronous completion order is modelled by passing the per-candidate
  outcomes as a list already arranged in completion order.
* Effects that matter to the claims (network requests issued, cache file
  reads and writes) are recorded as fields of the outcome structures.
* Python truthiness on optional strings (`if s:`) is `truthy` below:
  `None` and the empty string are falsy.
-/

namespace GeminiWebapi

/-! ## Cookies and credential sets -/

/-- A cookie as stored in a `curl_cffi` cookie jar: name, value and the
optional domain it is scoped to. -/
structure Cookie where
  name : String
  value : String
  domain : Option String
deriving DecidableEq, Repr

/-- A cookie jar; insertion order is the list order, lookups take the
first match. -/
abbrev Jar := List Cookie

/-- The two cookie arguments accepted throughout the source
(`dict | Cookies`): either a plain name-to-value mapping, or a full
cookie jar with domains. -/
inductive CookiesInput where
  | dict (entries : List (String × String))
  | jar (j : Jar)
deriving DecidableEq, Repr

/-- Python truthiness of an optional string: `None` and `""` are falsy. -/
def truthy : Option String → Bool
  | none => false
  | some s => if s = "" then false else true

/-- Name of the stable session cookie. -/
def psidName : String := "__Secure-1PSID"

/-- Name of the rotating token cookie. -/
def psidtsName : String := "__Secure-1PSIDTS"

/-- The top-level service domain that `_get_secure_1psid` prefers. -/
def googleDomain : String := ".google.com"

/-- Jar lookup by name and exact domain (`Cookies.get(name, domain=...)`). -/
def jarGetDomain (j : Jar) (n d : String) : Option String :=
  (j.find? (fun c => c.name = n && c.domain = some d)).map Cookie.value

/-- Jar lookup by name only (`Cookies.get(name)`). -/
def jarGet (j : Jar) (n : String) : Option String :=
  (j.find? (fun c => c.name = n)).map Cookie.value

/-- Dict lookup (`dict.get(name)`). -/
def dictGet (entries : List (String × String)) (n : String) : Option String :=
  (entries.find? (fun p => p.1 = n)).map Prod.snd

/-- Python `a or b` on optional strings: `b` when `a` is falsy. -/
def pyOr (a b : Option String) : Option String :=
  if truthy a then a else b

/-- Embeds `_get_secure_1psid` (identical in `get_access_token.py` and
`rotate_1psidts.py`): extract `__Secure-1PSID`, preferring the
`.google.com`-scoped value on a jar, plain lookup on a dict. -/
def getSecure1psid : CookiesInput → Option String
  | .dict entries => dictGet entries psidName
  | .jar j => pyOr (jarGetDomain j psidName googleDomain) (jarGet j psidName)

/-- Embeds `"name" in cookies`: key membership for a dict, cookie-name
membership for a jar. -/
def cookiesContains (c : CookiesInput) (n : String) : Bool :=
  match c with
  | .dict entries => entries.any (fun p => p.1 = n)
  | .jar j => j.any (fun ck => ck.name = n)

/-- Setting a cookie on a jar (`Cookies.set(name, value, domain=...)`):
replaces any cookie with the same name and domain. -/
def jarSet (j : Jar) (n v : String) (d : Option String) : Jar :=
  ⟨n, v, d⟩ :: j.filter (fun c => !(c.name = n && c.domain = d))

/-- Folding a cookies input into a jar (`Cookies.update(other)`); dict
entries carry no domain. -/
def jarUpdate (j : Jar) : CookiesInput → Jar
  | .dict entries => entries.foldl (fun acc p => jarSet acc p.1 p.2 none) j
  | .jar other => other.foldl (fun acc c => jarSet acc c.name c.value c.domain) j

/-- Embeds `_create_cookie_jar_with_base`: copy the extra cookies, then
update with the base cookies. -/
def createCookieJarWithBase (extra : Jar) (base : CookiesInput) : Jar :=
  jarUpdate extra base

/-! ## Retry orchestrator (`utils/decorators.py`) -/

/-- The package's exception taxonomy, restricted to what the retry
wrapper distinguishes: `APIError` is the one recoverable kind
(`except APIError`), everything else propagates. -/
inductive GemError where
  | apiError (msg : String)
  | authError (msg : String)
  | requestTimeoutError (msg : String)
  | transportError (msg : String)
deriving DecidableEq, Repr

/-- Whether an exception is caught by `except APIError`. -/
def isAPIError : GemError → Bool
  | .apiError _ => true
  | _ => false

/-- `DELAY_FACTOR = 5` from `decorators.py`. -/
def DELAY_FACTOR : Int := 5

/-- Embeds `_calculate_retry_delay(retry_max, current_retry)`:
`(retry_max - current_retry + 1) * DELAY_FACTOR`. -/
def calculateRetryDelay (retryMax currentRetry : Int) : Int :=
  (retryMax - currentRetry + 1) * DELAY_FACTOR

/-- The delay call as the wrapper makes it, at the wrapper's
natural-number budget and remaining-retries values. -/
def scheduledDelay (retryMax retriesRemaining : Nat) : Int :=
  calculateRetryDelay (Int.ofNat retryMax) (Int.ofNat retriesRemaining)

/-- Observable outcome of running a wrapped operation: the final result
or propagated error, the total number of attempts (invocations of the
wrapped body), and the backoff delays slept between attempts, in
order. -/
structure RunOutcome (α : Type) where
  result : Except GemError α
  attempts : Nat
  delays : List Int
deriving Repr

/-- Embeds the `wrapper` of `_wrap_async_function`: `op k` is the body of
the `try` block on attempt `k` (the liveness check plus the wrapped
call), `rr` is `retries_remaining`.  On `APIError` with budget left it
sleeps `_calculate_retry_delay(retry_max, retries_remaining)` and
recurses with the budget decremented; with no budget left, or on any
other exception, the error propagates as raised. -/
def runRetryAux {α : Type} (op : Nat → Except GemError α) (retryMax : Nat) :
    Nat → Nat → RunOutcome α
  | 0, k =>
    (match op k with
     | .ok a => ⟨.ok a, 1, []⟩
     | .error e => ⟨.error e, 1, []⟩)
  | r + 1, k =>
    (match op k with
     | .ok a => ⟨.ok a, 1, []⟩
     | .error e =>
       if isAPIError e then
         let rest := runRetryAux op retryMax r (k + 1)
         ⟨rest.result, rest.attempts + 1,
           scheduledDelay retryMax (r + 1) :: rest.delays⟩
       else ⟨.error e, 1, []⟩)

/-- A top-level call of the wrapped function: `current_retry = None`, so
`retries_remaining` starts at the full budget and attempts are numbered
from 0. -/
def runWithRetry {α : Type} (op : Nat → Except GemError α) (retryMax : Nat) :
    RunOutcome α :=
  runRetryAux op retryMax retryMax 0

/-- Attempt `k` of the operation fails with the recoverable error kind. -/
def failsRecoverably {α : Type} (op : Nat → Except GemError α) (k : Nat) : Prop :=
  ∃ m, op k = Except.error (GemError.apiError m)

/-! ## Token cache files

One cache file per account: `.cached_1psidts_{psid}.txt` under the cache
directory, holding the raw rotating-token string.  The directory is
modelled as a list of entries; `mtime` is the last-write timestamp in
seconds. -/

/-- One cache file: the `__Secure-1PSID` value embedded in its name, its
content (the cached `__Secure-1PSIDTS`), and its modification time. -/
structure CacheEntry where
  psid : String
  content : String
  mtime : Int
deriving DecidableEq, Repr

/-- Lookup of the cache file named after a given `__Secure-1PSID`
(`cache_dir / f".cached_1psidts_{psid}.txt"`). -/
def cacheLookup (cache : List CacheEntry) (psid : String) : Option CacheEntry :=
  cache.find? (fun e => e.psid = psid)

/-! ## Concurrent probe: candidate construction (`utils/get_access_token.py`) -/

/-- Embeds `_add_base_cookie_task` as the list of candidate jars it
appends: the base set (merged over the extra cookies) exactly when both
`__Secure-1PSID` and `__Secure-1PSIDTS` are present in it. -/
def addBaseCookieTask (base : CookiesInput) (extra : Jar) : List Jar :=
  if cookiesContains base psidName && cookiesContains base psidtsName then
    [createCookieJarWithBase extra base]
  else []

/-- Embeds `_add_single_cached_cookie_task`: when the cache file named
after the given `__Secure-1PSID` exists and is non-empty, one candidate:
the merged extra/base jar with the cached `__Secure-1PSIDTS` set on the
`.google.com` domain.  No freshness check is made. -/
def addSingleCachedCookieTask (base : CookiesInput) (extra : Jar)
    (cache : List CacheEntry) (securePsid : String) : List Jar :=
  match cacheLookup cache securePsid with
  | none => []
  | some e =>
    if e.content = "" then []
    else
      [jarSet (createCookieJarWithBase extra base) psidtsName e.content (some googleDomain)]

/-- Embeds `_add_all_cached_cookie_tasks`: one candidate per non-empty
cache file, built on a copy of the extra cookies only, with the file's
`__Secure-1PSID` (from its name) and `__Secure-1PSIDTS` (its content)
set on the `.google.com` domain. -/
def addAllCachedCookieTasks (extra : Jar) (cache : List CacheEntry) : List Jar :=
  cache.filterMap (fun e =>
    if e.content = "" then none
    else
      some (jarSet (jarSet extra psidName e.psid (some googleDomain))
        psidtsName e.content (some googleDomain)))

/-- Embeds `_add_cached_cookie_tasks`: dispatch on the truthiness of the
extracted `__Secure-1PSID`. -/
def addCachedCookieTasks (base : CookiesInput) (extra : Jar)
    (cache : List CacheEntry) (securePsid : Option String) : List Jar :=
  if truthy securePsid then
    addSingleCachedCookieTask base extra cache (securePsid.getD "")
  else
    addAllCachedCookieTasks extra cache

/-- The full candidate list built by `get_access_token` before probing:
base-cookie candidate first, then the cache-derived candidates, with the
`__Secure-1PSID` extracted from the base cookies as in the source. -/
def buildTasks (base : CookiesInput) (extra : Jar) (cache : List CacheEntry) : List Jar :=
  addBaseCookieTask base extra ++
    addCachedCookieTasks base extra cache (getSecure1psid base)

/-- Modelled from the claim wording, for comparison with `buildTasks`:
reading branch (3) of the claim as substituting each cache file's
session-id and rotating token into "the merged set" (the base set merged
over the extra cookies, as in branch (2)). -/
def buildTasksSpec (base : CookiesInput) (extra : Jar) (cache : List CacheEntry) : List Jar :=
  addBaseCookieTask base extra ++
    (if truthy (getSecure1psid base) then
      addSingleCachedCookieTask base extra cache ((getSecure1psid base).getD "")
    else
      cache.filterMap (fun e =>
        if e.content = "" then none
        else
          some (jarSet (jarSet (createCookieJarWithBase extra base)
            psidName e.psid (some googleDomain))
            psidtsName e.content (some googleDomain))))

/-! ## Concurrent probe: token extraction and the completion-order loop -/

/-- The regex match results over a probe response body: for each of the
three recognized tokens, `some g` when `re.search` finds the pattern
with capture group `g` (possibly empty), `none` when it does not
match. -/
structure PageTokens where
  snlm0e : Option String
  cfb2h : Option String
  fdrfje : Option String
deriving DecidableEq, Repr

/-- Embeds `_extract_tokens_from_response`: all-`None` when no token
matches at all; otherwise the access token defaults to the empty string
when absent while the other two stay `None` when absent. -/
def extractTokensFromResponse (t : PageTokens) :
    Option String × Option String × Option String :=
  if t.snlm0e = none ∧ t.cfb2h = none ∧ t.fdrfje = none then (none, none, none)
  else (some (t.snlm0e.getD ""), t.cfb2h, t.fdrfje)

/-- What a completed `send_request` task gives the loop: the token
matches over the response text and the client's cookie jar after the
request. -/
structure ProbeResponse where
  tokens : PageTokens
  cookies : Jar
deriving DecidableEq, Repr

/-- Outcome of one candidate task, as seen by the `as_completed` loop:
a response, or any exception raised inside the task (HTTP errors and
the consent-page `AuthError` alike). -/
inductive CandidateResult where
  | ok (r : ProbeResponse)
  | failed (msg : String)
deriving DecidableEq, Repr

/-- The tuple `get_access_token` returns on success: access token, build
label, session id, and the successful request's cookies. -/
structure AuthResult where
  accessToken : String
  buildLabel : Option String
  sessionId : Option String
  cookies : Jar
deriving DecidableEq, Repr

/-- The value the loop body accepts from one candidate: `some` exactly
when the response yields a token under the source's success test
`snlm0e is not None or cfb2h or fdrfje`; `none` for an exception or a
token-less response. -/
def candidateAuthResult : CandidateResult → Option AuthResult
  | .failed _ => none
  | .ok pr =>
    match extractTokensFromResponse pr.tokens with
    | (s, c, f) =>
      if s.isSome || truthy c || truthy f then
        some ⟨s.getD "", c, f, pr.cookies⟩
      else none

/-- A candidate counts as a success for the loop. -/
def candidateSucceeds (r : CandidateResult) : Bool :=
  (candidateAuthResult r).isSome

/-- Embeds the `for i, future in enumerate(asyncio.as_completed(tasks))`
loop of `get_access_token`: the argument lists the candidate outcomes in
completion order; exceptions are swallowed and the loop moves on; the
first response yielding a token is returned. -/
def probeLoop : List CandidateResult → Option AuthResult
  | [] => none
  | r :: rest =>
    match candidateAuthResult r with
    | some a => some a
    | none => probeLoop rest

/-- The `AuthError` message raised when no candidate could be built. -/
def noCookiesMsg : String :=
  "No valid cookies available for initialization. Please pass __Secure-1PSID and __Secure-1PSIDTS manually."

/-- The consolidated `AuthError` message raised when every candidate
failed, reporting the number of attempts (`len(tasks)`). -/
def consolidatedMsg (n : Nat) : String :=
  "Failed to initialize client. SECURE_1PSIDTS could get expired frequently, please make sure cookie values are up to date. (Failed initialization attempts: "
    ++ toString n ++ ")"

/-- Result of `get_access_token`: the success tuple, or the `AuthError`
raised. -/
inductive InitResult where
  | ok (a : AuthResult)
  | authError (msg : String)
deriving DecidableEq, Repr

/-- Embeds the tail of `get_access_token` after candidate construction:
`tasks` is the candidate list, `results` their outcomes in completion
order (one per task).  With no tasks it raises at once, before any probe
request exists; otherwise it runs the completion-order loop and, when
nothing succeeds, raises the consolidated error naming `len(tasks)`. -/
def get_access_token (tasks : List Jar) (results : List CandidateResult) : InitResult :=
  if tasks.isEmpty then .authError noCookiesMsg
  else
    match probeLoop results with
    | some a => .ok a
    | none => .authError (consolidatedMsg tasks.length)

/-! ## Rotation service (`utils/rotate_1psidts.py`) -/

/-- The rotation endpoint's response: HTTP status and response cookie
jar. -/
structure RotateResponse where
  status : Nat
  cookies : Jar
deriving DecidableEq, Repr

/-- Result of `rotate_1psidts`: the returned pair, or the exception
raised (`AuthError` on 401, a transport error from
`raise_for_status` otherwise). -/
inductive RotResult where
  | ok (token : Option String) (jar : Option Jar)
  | authError (msg : String)
  | transportError (status : Nat)
deriving DecidableEq, Repr

/-- Observable outcome of one `rotate_1psidts` call: its result plus the
effects the claims talk about — whether a rotation request went out,
what was written to the cache file (value and file mode), and whether
the cache file was read. -/
structure RotateOutcome where
  result : RotResult
  networkIssued : Bool
  cacheWrite : Option (String × Nat)
  cacheRead : Bool
deriving DecidableEq, Repr

/-- Embeds `_is_cache_fresh(cache_file, max_age_seconds)`: the file
exists and `time.time() - st_mtime <= max_age_seconds`. -/
def isCacheFresh (entry : Option CacheEntry) (now : Int) (maxAgeSeconds : Int) : Bool :=
  match entry with
  | none => false
  | some e => if now - e.mtime ≤ maxAgeSeconds then true else false

/-- The network half of `rotate_1psidts`, entered when no fresh cache
value short-circuits: `401` raises `AuthError`, any other error status
propagates from `raise_for_status`, and on success the new
`__Secure-1PSIDTS` response cookie — when present and non-empty — is
written to the cache file with mode `0o600` and returned with the full
response jar, while its absence returns `(None, response.cookies)`
without touching the cache. -/
def rotateViaNetwork (resp : RotateResponse) : RotateOutcome :=
  if resp.status = 401 then
    ⟨.authError "Cookie rotation failed with 401 Unauthorized", true, none, false⟩
  else if 400 ≤ resp.status then
    ⟨.transportError resp.status, true, none, false⟩
  else
    let new1psidts := jarGet resp.cookies psidtsName
    if truthy new1psidts then
      ⟨.ok (some (new1psidts.getD "")) (some resp.cookies), true,
        some (new1psidts.getD "", 0o600), false⟩
    else
      ⟨.ok none (some resp.cookies), true, none, false⟩

/-- Embeds `rotate_1psidts(cookies, proxy)`.  `cache` is the cache
directory, `now` the current time, `resp` the response the rotation
endpoint would give if contacted.  A falsy `__Secure-1PSID` returns
`(None, None)` at once; a fresh (≤ 60 s) cache file is read and its
content returned with no request; otherwise the request is issued. -/
def rotate_1psidts (cookies : CookiesInput) (cache : List CacheEntry)
    (now : Int) (resp : RotateResponse) : RotateOutcome :=
  let securePsid := getSecure1psid cookies
  if truthy securePsid then
    let entry := cacheLookup cache (securePsid.getD "")
    if isCacheFresh entry now 60 then
      ⟨.ok (some ((entry.map CacheEntry.content).getD "")) none, false, none, true⟩
    else rotateViaNetwork resp
  else ⟨.ok none none, false, none, false⟩

/-! ## Lemmas about the retry orchestrator -/

/-- A value at which the retry loop stops regardless of remaining
budget: a success, or an error not caught by `except APIError`. -/
def stopsRetry {α : Type} : Except GemError α → Prop
  | .ok _ => True
  | .error e => isAPIError e = false

lemma runRetryAux_stop {α : Type} (op : Nat → Except GemError α) (b rr k : Nat)
    (v : Except GemError α) (hv : op k = v) (hs : stopsRetry v) :
    runRetryAux op b rr k = ⟨v, 1, []⟩ := by
  cases rr <;> cases v <;> simp_all [runRetryAux, stopsRetry]

lemma runRetryAux_step {α : Type} (op : Nat → Except GemError α) (b r k : Nat)
    (m : String) (hm : op k = Except.error (GemError.apiError m)) :
    runRetryAux op b (r + 1) k =
      ⟨(runRetryAux op b r (k + 1)).result,
        (runRetryAux op b r (k + 1)).attempts + 1,
        scheduledDelay b (r + 1) :: (runRetryAux op b r (k + 1)).delays⟩ := by
  simp [runRetryAux, hm, isAPIError]

lemma runRetryAux_zero_fail {α : Type} (op : Nat → Except GemError α) (b k : Nat)
    (e : GemError) (hm : op k = Except.error e) :
    runRetryAux op b 0 k = ⟨Except.error e, 1, []⟩ := by
  simp [runRetryAux, hm]

lemma delays_range_succ (b j r : Nat) :
    (List.range (j + 1)).map (fun i => scheduledDelay b (r + 1 - i))
      = scheduledDelay b (r + 1)
        :: (List.range j).map (fun i => scheduledDelay b (r - i)) := by
  rw [List.range_succ_eq_map]
  simp [List.map_map, Function.comp, Nat.succ_sub_succ]

lemma runRetryAux_allFail_attempts {α : Type} (op : Nat → Except GemError α)
    (b : Nat) (h : ∀ i, failsRecoverably op i) :
    ∀ rr k, (runRetryAux op b rr k).attempts = rr + 1 := by
  intro rr
  induction rr with
  | zero =>
    intro k
    obtain ⟨m, hm⟩ := h k
    simp [runRetryAux_zero_fail op b k _ hm]
  | succ r ih =>
    intro k
    obtain ⟨m, hm⟩ := h k
    simp [runRetryAux_step op b r k m hm, ih]

lemma runRetryAux_allFail_delays {α : Type} (op : Nat → Except GemError α)
    (b : Nat) (h : ∀ i, failsRecoverably op i) :
    ∀ rr k, (runRetryAux op b rr k).delays
      = (List.range rr).map (fun i => scheduledDelay b (rr - i)) := by
  intro rr
  induction rr with
  | zero =>
    intro k
    obtain ⟨m, hm⟩ := h k
    simp [runRetryAux_zero_fail op b k _ hm]
  | succ r ih =>
    intro k
    obtain ⟨m, hm⟩ := h k
    rw [runRetryAux_step op b r k m hm, delays_range_succ b r r]
    simp [ih]

lemma runRetryAux_allFail_result {α : Type} (op : Nat → Except GemError α)
    (b : Nat) (m : Nat → String)
    (h : ∀ i, op i = Except.error (GemError.apiError (m i))) :
    ∀ rr k, (runRetryAux op b rr k).result
      = Except.error (GemError.apiError (m (k + rr))) := by
  intro rr
  induction rr with
  | zero =>
    intro k
    simp [runRetryAux_zero_fail op b k _ (h k)]
  | succ r ih =>
    intro k
    rw [runRetryAux_step op b r k (m k) (h k)]
    have harith : k + 1 + r = k + (r + 1) := by omega
    simpa [harith] using ih (k + 1)

lemma runRetryAux_terminal {α : Type} (op : Nat → Except GemError α)
    (b : Nat) (v : Except GemError α) (hs : stopsRetry v) :
    ∀ j rr k, (∀ i, i < j → failsRecoverably op (k + i)) →
      op (k + j) = v → j ≤ rr →
      runRetryAux op b rr k
        = ⟨v, j + 1, (List.range j).map (fun i => scheduledDelay b (rr - i))⟩ := by
  intro j
  induction j with
  | zero =>
    intro rr k _ hterm _
    simpa using runRetryAux_stop op b rr k v (by simpa using hterm) hs
  | succ j' ih =>
    intro rr k h hterm hle
    obtain ⟨m, hm⟩ := h 0 (Nat.succ_pos j')
    obtain ⟨r, rfl⟩ : ∃ r, rr = r + 1 := ⟨rr - 1, by omega⟩
    rw [runRetryAux_step op b r k m (by simpa using hm)]
    rw [ih r (k + 1)
      (by
        intro i hi
        have := h (i + 1) (by omega)
        have harith : k + (i + 1) = k + 1 + i := by omega
        rwa [harith] at this)
      (by
        have harith : k + 1 + j' = k + (j' + 1) := by omega
        rwa [harith])
      (by omega)]
    rw [delays_range_succ b j' r]

/-! ## Claim C4: the backoff schedule -/

/-- C4, counterexample: with retryBudget 3 and an operation that always
raises the recoverable error, the successive backoff delays computed by
the wrapper are 5, 10, 15 seconds — not the 15, 10, 5 the claim states,
so the first retry waits the shortest, not the longest. -/
theorem backoff_budget3_counterexample :
    (runWithRetry
        (fun _ => (Except.error (GemError.apiError "boom") : Except GemError Nat))
        3).delays = [5, 10, 15]
      ∧ [(5 : Int), 10, 15] ≠ [15, 10, 5] := by
  constructor
  · decide
  · decide

/-- C4, amended: before each retry the wrapper sleeps
`(retryBudget - retriesRemaining + 1) * DELAY_FACTOR` seconds with
`DELAY_FACTOR = 5`, where `retriesRemaining` starts at the budget and
decrements by one per retry — the i-th retry (0-based) has
`retriesRemaining = b - i`; in particular for retryBudget 3 the
successive delays are 5, 10, 15 seconds: the first retry waits the
shortest and the delay grows toward the final attempt. -/
theorem backoff_delay_schedule {α : Type} (op : Nat → Except GemError α)
    (h : ∀ k, failsRecoverably op k) :
    (∀ b, (runWithRetry op b).delays
        = (List.range b).map (fun i => scheduledDelay b (b - i)))
      ∧ (∀ b rrem, scheduledDelay b rrem
          = (Int.ofNat b - Int.ofNat rrem + 1) * DELAY_FACTOR)
      ∧ (runWithRetry op 3).delays = [5, 10, 15] := by
  refine ⟨fun b => runRetryAux_allFail_delays op b h b 0, fun b rrem => rfl, ?_⟩
  rw [runWithRetry, runRetryAux_allFail_delays op 3 h 3 0]
  decide

/-- Witness for C4's amended theorem at a concrete always-failing
operation. -/
theorem backoff_delay_schedule_witness :
    (runWithRetry
        (fun _ => (Except.error (GemError.apiError "boom") : Except GemError Nat))
        3).delays = [5, 10, 15] :=
  (backoff_delay_schedule
      (fun _ => (Except.error (GemError.apiError "boom") : Except GemError Nat))
      (fun _ => ⟨"boom", rfl⟩)).2.2

/-! ## Claim C5: attempt counts -/

/-- C5: for every retry budget `b`, an operation that raises the
recoverable error (`APIError`) on every attempt is invoked exactly
`b + 1` times before that error propagates; an operation that first
succeeds on 0-based attempt `k` (so on the `k + 1`-st invocation, with
`k + 1 ≤ b + 1`) returns that success, with exactly `k + 1` invocations
and none after it. -/
theorem retry_attempt_counts {α : Type} (op : Nat → Except GemError α) (b : Nat) :
    ((∀ k, failsRecoverably op k) →
        (runWithRetry op b).attempts = b + 1
          ∧ ∃ m, (runWithRetry op b).result = Except.error (GemError.apiError m))
      ∧ (∀ k a, (∀ i, i < k → failsRecoverably op i) →
          op k = Except.ok a → k ≤ b →
          (runWithRetry op b).result = Except.ok a
            ∧ (runWithRetry op b).attempts = k + 1) := by
  constructor
  · intro h
    refine ⟨runRetryAux_allFail_attempts op b h b 0, ?_⟩
    choose m hm using h
    exact ⟨m b, by simpa using runRetryAux_allFail_result op b m hm b 0⟩
  · intro k a h hk hkb
    have := runRetryAux_terminal op b (Except.ok a) trivial k b 0
      (by simpa using h) (by simpa using hk) hkb
    rw [runWithRetry, this]
    exact ⟨rfl, rfl⟩

/-- Witness for C5 at budget 2: an always-failing operation makes 3
attempts; an operation succeeding on attempt 1 (0-based) returns its
value. -/
theorem retry_attempt_counts_witness :
    (runWithRetry
        (fun _ => (Except.error (GemError.apiError "boom") : Except GemError Nat))
        2).attempts = 3
      ∧ (runWithRetry
          (fun k => if k = 1 then Except.ok 7
            else (Except.error (GemError.apiError "boom") : Except GemError Nat))
          2).result = Except.ok 7 := by
  constructor
  · exact ((retry_attempt_counts
      (fun _ => (Except.error (GemError.apiError "boom") : Except GemError Nat)) 2).1
      (fun _ => ⟨"boom", rfl⟩)).1
  · exact ((retry_attempt_counts
      (fun k => if k = 1 then Except.ok 7
        else (Except.error (GemError.apiError "boom") : Except GemError Nat)) 2).2
      1 7
      (fun i hi => ⟨"boom", by
        have : i = 0 := by omega
        subst this
        rfl⟩)
      rfl (by omega)).1

/-! ## Claim C6: only the recoverable kind is retried -/

/-- C6: a non-recoverable error (`AuthError`, `RequestTimeoutError`, any
transport error) raised on its first occurrence — the 0-based attempt
`j`, after `j` recoverable failures — propagates to the caller
unmodified and immediately: no further attempt and no further backoff
sleep happens after it.  And when every attempt fails recoverably, the
error propagated after the budget is exhausted is exactly the error of
the last attempt (attempt `b`), unmodified. -/
theorem nonrecoverable_propagates {α : Type} (op : Nat → Except GemError α) (b : Nat) :
    (∀ e j, isAPIError e = false → j ≤ b →
        (∀ i, i < j → failsRecoverably op i) → op j = Except.error e →
        (runWithRetry op b).result = Except.error e
          ∧ (runWithRetry op b).attempts = j + 1
          ∧ (runWithRetry op b).delays.length = j)
      ∧ (∀ m : Nat → String,
          (∀ i, op i = Except.error (GemError.apiError (m i))) →
          (runWithRetry op b).result = Except.error (GemError.apiError (m b))) := by
  constructor
  · intro e j he hj h hterm
    have := runRetryAux_terminal op b (Except.error e) he j b 0
      (by simpa using h) (by simpa using hterm) hj
    rw [runWithRetry, this]
    exact ⟨rfl, rfl, by simp⟩
  · intro m hm
    simpa using runRetryAux_allFail_result op b m hm b 0

/-- Witness for C6 at budget 3: an `AuthError` on the very first attempt
propagates with one single attempt and no sleeps, and an always-failing
operation propagates the message of its last attempt (attempt 3). -/
theorem nonrecoverable_propagates_witness :
    (runWithRetry
        (fun _ => (Except.error (GemError.authError "denied") : Except GemError Nat))
        3).result = Except.error (GemError.authError "denied")
      ∧ (runWithRetry
          (fun _ => (Except.error (GemError.authError "denied") : Except GemError Nat))
          3).attempts = 1
      ∧ (runWithRetry
          (fun i => (Except.error (GemError.apiError (toString i)) : Except GemError Nat))
          3).result = Except.error (GemError.apiError "3") := by
  have h1 := (nonrecoverable_propagates
    (fun _ => (Except.error (GemError.authError "denied") : Except GemError Nat)) 3).1
    (GemError.authError "denied") 0 rfl (by omega) (fun i hi => absurd hi (by omega)) rfl
  have h2 := (nonrecoverable_propagates
    (fun i => (Except.error (GemError.apiError (toString i)) : Except GemError Nat)) 3).2
    (fun i => toString i) (fun _ => rfl)
  exact ⟨h1.1, h1.2.1, h2⟩

/-! ## Claim C1: the probe accepts the first token-bearing candidate -/

/-- C1: the completion-order loop returns the `AuthResult` of the first
candidate (in completion order) whose response yields at least one of
the three recognized tokens; a candidate's response succeeds exactly
when at least one of the three regexes matched — in particular an
access-token match with empty capture (`snlm0e = some ""`) counts as
success — and a raised exception or an all-absent response is the only
failure for a candidate. -/
theorem probe_accepts_first_token_bearing_candidate :
    ∀ rs : List CandidateResult,
      probeLoop rs = (rs.find? candidateSucceeds).bind candidateAuthResult
        ∧ (∀ pr : ProbeResponse,
            candidateSucceeds (CandidateResult.ok pr)
              = (pr.tokens.snlm0e.isSome || pr.tokens.cfb2h.isSome
                  || pr.tokens.fdrfje.isSome))
        ∧ (∀ msg, candidateSucceeds (CandidateResult.failed msg) = false)
        ∧ (∀ r, candidateSucceeds r = true → (candidateAuthResult r).isSome) := by
  intro rs
  refine ⟨?_, ?_, fun msg => rfl, fun r hr => by simpa [candidateSucceeds] using hr⟩
  · induction rs with
    | nil => rfl
    | cons r rest ih =>
      cases h : candidateAuthResult r with
      | some a => simp [probeLoop, h, List.find?_cons, candidateSucceeds]
      | none => simp [probeLoop, h, List.find?_cons, candidateSucceeds, ih]
  · intro pr
    obtain ⟨⟨s, c, f⟩, ck⟩ := pr
    cases s <;> cases c <;> cases f <;>
      simp [candidateSucceeds, candidateAuthResult, extractTokensFromResponse, truthy]

/-- Witness for C1: with a first candidate that raised and a second
whose response matched only an empty access token, the loop returns the
second candidate's result — the empty access token counts as success. -/
theorem probe_accepts_first_token_bearing_candidate_witness :
    probeLoop [CandidateResult.failed "boom",
        CandidateResult.ok ⟨⟨some "", none, none⟩, []⟩]
        = some ⟨"", none, none, []⟩
      ∧ (candidateAuthResult (CandidateResult.ok ⟨⟨some "", none, none⟩, []⟩)).isSome := by
  have h := probe_accepts_first_token_bearing_candidate
    [CandidateResult.failed "boom", CandidateResult.ok ⟨⟨some "", none, none⟩, []⟩]
  refine ⟨?_, h.2.2.2 _ (by decide)⟩
  rw [h.1]
  decide

/-! ## Claim C2: probe failure behaviour -/

lemma probeLoop_all_fail :
    ∀ rs : List CandidateResult,
      (∀ r ∈ rs, candidateSucceeds r = false) → probeLoop rs = none := by
  intro rs
  induction rs with
  | nil => intro _; rfl
  | cons r rest ih =>
    intro h
    have hr := h r (List.mem_cons_self r rest)
    cases hcand : candidateAuthResult r with
    | some a => simp [candidateSucceeds, hcand] at hr
    | none =>
      simp only [probeLoop, hcand]
      exact ih (fun x hx => h x (List.mem_cons_of_mem r hx))

/-- C2: with zero candidates, `get_access_token` raises `AuthError` with
the no-cookies message no matter what the network would have answered —
no probe request exists to be inspected; with candidates present but all
of them failing (exceptions included), each failure is skipped and the
remaining outcomes still inspected, and one consolidated `AuthError` is
raised whose message reports the exact number of candidate attempts
(one outcome per task). -/
theorem probe_failure_error_reporting :
    ∀ (tasks : List Jar) (results : List CandidateResult),
      (tasks = [] → get_access_token tasks results = InitResult.authError noCookiesMsg)
        ∧ (tasks ≠ [] → results.length = tasks.length →
            (∀ r ∈ results, candidateSucceeds r = false) →
            get_access_token tasks results
              = InitResult.authError (consolidatedMsg results.length))
        ∧ (∀ (bad : CandidateResult) (rest : List CandidateResult),
            candidateSucceeds bad = false →
            probeLoop (bad :: rest) = probeLoop rest) := by
  intro tasks results
  refine ⟨?_, ?_, ?_⟩
  · intro h
    subst h
    rfl
  · intro hne hlen hall
    rw [get_access_token, if_neg (by simpa using hne), probeLoop_all_fail results hall,
      hlen]
  · intro bad rest hbad
    cases hcand : candidateAuthResult bad with
    | some a => simp [candidateSucceeds, hcand] at hbad
    | none => simp [probeLoop, hcand]

/-- Witness for C2: the empty candidate list raises the no-cookies
`AuthError` at once, and a single candidate whose task raised an
exception yields the consolidated `AuthError` naming 1 attempt. -/
theorem probe_failure_error_reporting_witness :
    get_access_token [] [] = InitResult.authError noCookiesMsg
      ∧ get_access_token [[]] [CandidateResult.failed "connection reset"]
          = InitResult.authError (consolidatedMsg 1) := by
  refine ⟨(probe_failure_error_reporting [] []).1 rfl, ?_⟩
  exact (probe_failure_error_reporting [[]] [CandidateResult.failed "connection reset"]).2.1
    (by simp) rfl (by decide)

/-! ## Claim C3: candidate construction -/

/-- Modelled from the amended claim, as one enumeration: (1) the base
set merged over the extra cookies, only if the base set contains both
cookie names; (2) with a truthy session-id, the merged set with the
matching non-empty cache file's token substituted, freshness ignored;
(3) with the session-id absent, one candidate per non-empty cache file,
built on the extra cookies alone (the base set is not merged in) with
the file's session-id and token set. -/
def buildTasksAmended (base : CookiesInput) (extra : Jar) (cache : List CacheEntry) :
    List Jar :=
  (if cookiesContains base psidName && cookiesContains base psidtsName then
    [createCookieJarWithBase extra base]
  else []) ++
    (if truthy (getSecure1psid base) then
      match cacheLookup cache ((getSecure1psid base).getD "") with
      | none => []
      | some e =>
        if e.content ≠ "" then
          [jarSet (createCookieJarWithBase extra base) psidtsName e.content
            (some googleDomain)]
        else []
    else
      cache.filterMap (fun e =>
        if e.content ≠ "" then
          some (jarSet (jarSet extra psidName e.psid (some googleDomain))
            psidtsName e.content (some googleDomain))
        else none))

/-- C3, counterexample: with a base set holding only an unrelated cookie
(no session-id), an empty extra jar and one cache file, the candidate
the code builds does not contain the base set's cookie at all — the
claim's "substituted into the merged set" (`buildTasksSpec`) would keep
it. -/
theorem cached_candidates_counterexample :
    buildTasks (CookiesInput.dict [("NID", "nid")]) [] [⟨"P", "T", 0⟩]
        ≠ buildTasksSpec (CookiesInput.dict [("NID", "nid")]) [] [⟨"P", "T", 0⟩]
      ∧ (∀ j ∈ buildTasks (CookiesInput.dict [("NID", "nid")]) [] [⟨"P", "T", 0⟩],
          ∀ c ∈ j, c.name ≠ "NID")
      ∧ (∃ j ∈ buildTasksSpec (CookiesInput.dict [("NID", "nid")]) [] [⟨"P", "T", 0⟩],
          ∃ c ∈ j, c.name = "NID") := by
  refine ⟨by decide, by decide, by decide⟩

/-- C3, amended: the candidate list is exactly the enumeration of the
amended claim — base set as-is when both cookies are present, the
cache-token merge for a matching non-empty cache file regardless of
freshness, and, when the session-id is absent, one candidate per
non-empty cache file built from the extra cookies only. -/
theorem candidate_construction :
    ∀ (base : CookiesInput) (extra : Jar) (cache : List CacheEntry),
      buildTasks base extra cache = buildTasksAmended base extra cache := by
  intro base extra cache
  unfold buildTasks buildTasksAmended addBaseCookieTask addCachedCookieTasks
    addSingleCachedCookieTask addAllCachedCookieTasks
  simp only [ne_eq, ite_not]

/-! ## Claim C7: fresh-cache short-circuit in rotation -/

/-- C7: with a usable (non-empty) session cookie whose cache file exists
and is at most 60 seconds old — freshness being
`now - lastWriteTimestamp ≤ 60` — `rotate_1psidts` returns the cached
token content directly: no rotation request is issued and nothing is
written. -/
theorem rotation_fresh_cache_short_circuit :
    ∀ (cookies : CookiesInput) (cache : List CacheEntry) (now : Int)
      (resp : RotateResponse) (v : String) (e : CacheEntry),
      getSecure1psid cookies = some v → v ≠ "" →
      cacheLookup cache v = some e → now - e.mtime ≤ 60 →
      rotate_1psidts cookies cache now resp
        = ⟨RotResult.ok (some e.content) none, false, none, true⟩ := by
  intro cookies cache now resp v e hpsid hv hentry hfresh
  simp [rotate_1psidts, hpsid, truthy, hv, hentry, isCacheFresh, hfresh]

/-- Witness for C7: a fresh 30-second-old cache file for the session
cookie short-circuits rotation. -/
theorem rotation_fresh_cache_short_circuit_witness :
    getSecure1psid (CookiesInput.dict [(psidName, "P")]) = some "P"
      ∧ rotate_1psidts (CookiesInput.dict [(psidName, "P")])
          [⟨"P", "TOK", 0⟩] 30 ⟨200, []⟩
          = ⟨RotResult.ok (some "TOK") none, false, none, true⟩ :=
  ⟨by decide,
    rotation_fresh_cache_short_circuit (CookiesInput.dict [(psidName, "P")])
      [⟨"P", "TOK", 0⟩] 30 ⟨200, []⟩ "P" ⟨"P", "TOK", 0⟩
      (by decide) (by decide) (by decide) (by decide)⟩

/-! ## Claim C8: 401 and other error statuses leave the cache alone -/

/-- C8: when rotation reaches the network (usable session cookie, cache
not fresh), a 401 response raises `AuthError` with no cache write, and
any other error status propagates as a transport error from
`raise_for_status`, also with no cache write. -/
theorem rotation_error_statuses :
    ∀ (cookies : CookiesInput) (cache : List CacheEntry) (now : Int)
      (resp : RotateResponse) (v : String),
      getSecure1psid cookies = some v → v ≠ "" →
      isCacheFresh (cacheLookup cache v) now 60 = false →
      (resp.status = 401 →
          rotate_1psidts cookies cache now resp
            = ⟨RotResult.authError "Cookie rotation failed with 401 Unauthorized",
                true, none, false⟩)
        ∧ (resp.status ≠ 401 → 400 ≤ resp.status →
            rotate_1psidts cookies cache now resp
              = ⟨RotResult.transportError resp.status, true, none, false⟩) := by
  intro cookies cache now resp v hpsid hv hstale
  constructor
  · intro h401
    simp [rotate_1psidts, hpsid, truthy, hv, hstale, rotateViaNetwork, h401]
  · intro hne h400
    simp [rotate_1psidts, hpsid, truthy, hv, hstale, rotateViaNetwork, hne, h400]

/-- Witness for C8: with an empty cache, a 401 response raises
`AuthError` and a 500 response raises a transport error, neither
writing the cache. -/
theorem rotation_error_statuses_witness :
    rotate_1psidts (CookiesInput.dict [(psidName, "P")]) [] 0 ⟨401, []⟩
        = ⟨RotResult.authError "Cookie rotation failed with 401 Unauthorized",
            true, none, false⟩
      ∧ rotate_1psidts (CookiesInput.dict [(psidName, "P")]) [] 0 ⟨500, []⟩
          = ⟨RotResult.transportError 500, true, none, false⟩ :=
  ⟨(rotation_error_statuses (CookiesInput.dict [(psidName, "P")]) [] 0 ⟨401, []⟩ "P"
      (by decide) (by decide) (by decide)).1 rfl,
    (rotation_error_statuses (CookiesInput.dict [(psidName, "P")]) [] 0 ⟨500, []⟩ "P"
      (by decide) (by decide) (by decide)).2 (by decide) (by decide)⟩

/-! ## Claim C9: successful rotation persists the new token -/

/-- C9: on a success status, a non-empty `__Secure-1PSIDTS` cookie in
the response is written to the cache file with mode `0o600` (owner
read/write only) and returned together with the response's full cookie
jar; with no such cookie in the response, `(None, response.cookies)` is
returned — the `Ok` result, not an error — and nothing is written. -/
theorem rotation_success_cookie_handling :
    ∀ (cookies : CookiesInput) (cache : List CacheEntry) (now : Int)
      (resp : RotateResponse) (v : String),
      getSecure1psid cookies = some v → v ≠ "" →
      isCacheFresh (cacheLookup cache v) now 60 = false →
      resp.status ≠ 401 → resp.status < 400 →
      ((∀ w, jarGet resp.cookies psidtsName = some w → w ≠ "" →
          rotate_1psidts cookies cache now resp
            = ⟨RotResult.ok (some w) (some resp.cookies), true,
                some (w, 0o600), false⟩)
        ∧ (jarGet resp.cookies psidtsName = none →
            rotate_1psidts cookies cache now resp
              = ⟨RotResult.ok none (some resp.cookies), true, none, false⟩)) := by
  intro cookies cache now resp v hpsid hv hstale hne h400
  constructor
  · intro w hw hwne
    simp [rotate_1psidts, hpsid, truthy, hv, hstale, rotateViaNetwork, hne,
      Nat.not_le.mpr h400, hw, hwne]
  · intro hnone
    simp [rotate_1psidts, hpsid, truthy, hv, hstale, rotateViaNetwork, hne,
      Nat.not_le.mpr h400, hnone]

/-- Witness for C9: a 200 response carrying a new token writes it with
mode `0o600` and returns it with the response jar; a 200 response
without the cookie returns `(None, jar)` and writes nothing. -/
theorem rotation_success_cookie_handling_witness :
    rotate_1psidts (CookiesInput.dict [(psidName, "P")]) [] 0
        ⟨200, [⟨psidtsName, "NEW", some googleDomain⟩]⟩
        = ⟨RotResult.ok (some "NEW")
            (some [⟨psidtsName, "NEW", some googleDomain⟩]), true,
            some ("NEW", 0o600), false⟩
      ∧ rotate_1psidts (CookiesInput.dict [(psidName, "P")]) [] 0 ⟨200, []⟩
          = ⟨RotResult.ok none (some []), true, none, false⟩ :=
  ⟨(rotation_success_cookie_handling (CookiesInput.dict [(psidName, "P")]) [] 0
      ⟨200, [⟨psidtsName, "NEW", some googleDomain⟩]⟩ "P"
      (by decide) (by decide) (by decide) (by decide) (by decide)).1
      "NEW" (by decide) (by decide),
    (rotation_success_cookie_handling (CookiesInput.dict [(psidName, "P")]) [] 0
      ⟨200, []⟩ "P"
      (by decide) (by decide) (by decide) (by decide) (by decide)).2 rfl⟩

/-! ## Claim C10: rotation without an extractable session cookie -/

/-- C10: when no `__Secure-1PSID` can be extracted from the credential
set, `rotate_1psidts` returns `(None, None)` without raising, without
issuing any request, and without reading or writing any cache file. -/
theorem rotation_without_session_cookie :
    ∀ (cookies : CookiesInput) (cache : List CacheEntry) (now : Int)
      (resp : RotateResponse),
      getSecure1psid cookies = none →
      rotate_1psidts cookies cache now resp
        = ⟨RotResult.ok none none, false, none, false⟩ := by
  intro cookies cache now resp hpsid
  simp [rotate_1psidts, hpsid, truthy]

/-- Witness for C10: an empty credential dict yields `(None, None)` with
no request and no cache access. -/
theorem rotation_without_session_cookie_witness :
    getSecure1psid (CookiesInput.dict []) = none
      ∧ rotate_1psidts (CookiesInput.dict []) [⟨"P", "TOK", 0⟩] 0 ⟨200, []⟩
          = ⟨RotResult.ok none none, false, none, false⟩ :=
  ⟨rfl,
    rotation_without_session_cookie (CookiesInput.dict []) [⟨"P", "TOK", 0⟩] 0
      ⟨200, []⟩ rfl⟩

end GeminiWebapi
